import Mathlib

/-!
Verification of the Result library of joyautomation/dark-matter.

The development shallowly embeds the library's data model and combinators:
`src/result/result.ts` (the Result union, `createSuccess`, `createFail`,
`isSuccess`, `isFail`, `unwrapResults`), `src/result/error.ts`
(`createErrorString`, `createErrorProperties`, `rTry`, `rTryAsync`),
`src/result/pipe.ts` (`resultPipe`), `src/fp/pipe.ts` (`pipe`),
`src/fp/cond.ts` (`cond`) and the `rcond` module.

Host-language conventions are modelled explicitly:
* `JSValue` is the universe of runtime values a step can throw or a `cause`
  can hold; `JSValue.jsError` is the `instanceof Error` case, carrying
  `message`, `stack` (which may be `undefined`, i.e. `none`), `name` and
  `cause`.  `stringOf` is the host's default string conversion `String(v)`
  (`Error.prototype.toString`, identity on strings, decimal rendering of
  numbers, and the generic `"[object Object]"` rendering of plain objects).
* an optional field (`message?: string` and friends) is an `Option`,
  with `none` standing for an absent / `undefined` field.
* a function that may throw is embedded in `Except JSValue`, with
  `Except.error e` standing for `throw e` (or a rejected promise carrying
  `e`); a function whose body contains no throwing operation is embedded
  with the plain return type or with a constant-`Except.ok` body when its
  exception channel is under discussion.
* the `async`/`await` layer of `resultPipe`, `pipeAsync` and `rTryAsync`
  is erased: each stage is awaited before the next one starts, so a run is
  the same sequential computation with resolved values, and a rejected
  pending value is the same as a throw at its stage.
-/

namespace DarkMatter

/-- A runtime value of the host language, as far as the error machinery
inspects one: `jsError` is a value for which `instanceof Error` holds,
with its `message`, `stack` (possibly `undefined`), `name` and `cause`
fields; the other constructors are non-Error values together with the
data their default string conversion needs. -/
inductive JSValue where
  | jsError (message : String) (stack : Option String) (name : String)
      (cause : Option JSValue)
  | jsString (s : String)
  | jsNumber (n : Int)
  | jsObject


/-- The host's default string conversion `String(v)`: for an `Error` this is
`Error.prototype.toString` (`name` and `message` joined by a colon), for a
string the string itself, for a number its decimal rendering, and for a
plain object the generic `"[object Object]"` rendering. -/
def stringOf : JSValue → String
  | .jsError message _ name _ => if message = "" then name else name ++ ": " ++ message
  | .jsString s => s
  | .jsNumber n => toString n
  | .jsObject => "[object Object]"

/-- The payload of a failed Result, after the `success: false` tag:
`src/result/result.ts` interface `ResultFail`.  `error` is the only
required field; `message`, `stack`, `cause` and `name` are optional.
The interface declares no `context` field. -/
structure ResultFail where
  error : String
  message : Option String
  stack : Option String
  cause : Option JSValue
  name : Option String


/-- The Result union of `src/result/result.ts`: `ResultSuccess<T>` holds
`output : T`, `ResultFail` holds the failure payload. -/
inductive Result (T : Type) where
  | success (output : T)
  | fail (f : ResultFail)


/-- Type guard `isSuccess` of `src/result/result.ts`. -/
def isSuccess {T : Type} : Result T → Bool
  | .success _ => true
  | .fail _ => false

/-- Type guard `isFail` of `src/result/result.ts`. -/
def isFail {T : Type} : Result T → Bool
  | .success _ => false
  | .fail _ => true

/-- Constructor `createSuccess` of `src/result/result.ts`. -/
def createSuccess {T : Type} (output : T) : Result T := .success output

/-- The argument accepted by `createFail`: either a plain string or a
structured record.  The record is a runtime object; beyond the five keys
declared in the parameter type it can carry a `context` key at runtime
(`createErrorProperties` produces one), which `createFail` never reads. -/
inductive FailInput where
  | str (s : String)
  | record (error : String) (message : Option String) (stack : Option String)
      (cause : Option JSValue) (name : Option String) (context : Option String)


/-- Constructor `createFail` of `src/result/result.ts`: a plain string
becomes the `error` field with nothing spread in; a record has its
`message`, `stack`, `cause` and `name` fields spread into the failure
(and only those - any other key of the runtime object is ignored). -/
def createFail {T : Type} : FailInput → Result T
  | .str s => .fail ⟨s, none, none, none, none⟩
  | .record error message stack cause name _context =>
      .fail ⟨error, message, stack, cause, name⟩

/-- The runtime value of the property access `r.output`: the wrapped value on
a `ResultSuccess`, and `undefined` (no such key exists) on a `ResultFail`. -/
def outputProp {T : Type} : Result T → Option T
  | .success v => some v
  | .fail _ => none

/-- Function `unwrapResults` of `src/result/result.ts` (the live, `ResultSuccess`-typed
version): its body is `results.map((r) => r.output)`.  The body contains no
throwing operation - a property access on a `ResultFail` evaluates to
`undefined`, it does not raise - so on every input the function returns
normally; the `Except` wrapper makes that exception channel explicit. -/
def unwrapResults {T : Type} (results : List (Result T)) :
    Except JSValue (List (Option T)) :=
  .ok (results.map fun r => outputProp r)

/-- Function `createErrorString` of `src/result/error.ts`:
`context + (error instanceof Error ? error.stack || error.message : String(error))`.
`error.stack || error.message` falls back to the message both when `stack`
is `undefined` and when it is the empty string (a falsy value). -/
def createErrorString (error : JSValue) (context : String) : String :=
  context ++
    match error with
    | .jsError message stack _ _ =>
        match stack with
        | some st => if st = "" then message else st
        | none => message
    | v => stringOf v

/-- The record returned by `createErrorProperties`
(`Omit<ResultFail, "success"> & { context: string }`): the five failure
fields plus a `context` key that always holds a string. -/
structure ErrorProperties where
  error : String
  context : String
  message : Option String
  stack : Option String
  cause : Option JSValue
  name : Option String

/-- Function `createErrorProperties` of `src/result/error.ts`: `error` is the
formatted string, `context` is passed through, and `message`, `stack`,
`cause`, `name` are the fields of the caught value when it is an `Error`
and `undefined` otherwise. -/
def createErrorProperties (error : JSValue) (context : String) : ErrorProperties where
  error := createErrorString error context
  context := context
  message := match error with | .jsError m _ _ _ => some m | _ => none
  stack := match error with | .jsError _ st _ _ => st | _ => none
  cause := match error with | .jsError _ _ _ c => c | _ => none
  name := match error with | .jsError _ _ n _ => some n | _ => none

/-- The runtime object `createErrorProperties` hands to `createFail` in the
guards: all six keys of the properties record, `context` included. -/
def failInputOfProps (p : ErrorProperties) : FailInput :=
  .record p.error p.message p.stack p.cause p.name (some p.context)

/-- Guard `rTry` of `src/result/error.ts`.  The wrapped call `fn(args)` is embedded
by its outcome: `Except.ok v` when it returns `v`, `Except.error e` when it
throws `e`.  A normal return is wrapped by `createSuccess`; a caught value is
normalized by `createErrorProperties` (with the default empty context) and
passed to `createFail`. -/
def rTry {T : Type} (fn : Except JSValue T) : Result T :=
  match fn with
  | .ok v => createSuccess v
  | .error e => createFail (failInputOfProps (createErrorProperties e ""))

/-- Guard `rTryAsync` of `src/result/error.ts`: the awaited outcome of `fn(args)`
is classified exactly as in `rTry` (a rejection is the caught value). -/
def rTryAsync {T : Type} (fn : Except JSValue T) : Result T :=
  match fn with
  | .ok v => createSuccess v
  | .error e => createFail (failInputOfProps (createErrorProperties e ""))

/-- The loop of `resultPipe` in `src/result/pipe.ts`:
`for (const fn of fns) { if (isFail(acc)) return acc; acc = await Promise.resolve(fn(acc.output)); }`
followed by `return acc`.  A step is embedded as a function from the prior
output to the outcome of `await Promise.resolve(fn(...))`: `Except.ok r`
when it produces the Result `r`, `Except.error e` when it throws or its
pending value rejects with `e`.  An exception propagates out of the loop. -/
def resultPipeLoop {T : Type} (acc : Result T)
    (fns : List (T → Except JSValue (Result T))) : Except JSValue (Result T) :=
  match fns with
  | [] => .ok acc
  | fn :: rest =>
    match acc with
    | .fail f => .ok (.fail f)
    | .success v =>
      match fn v with
      | .ok acc2 => resultPipeLoop acc2 rest
      | .error e => .error e

/-- The body of the `try` block of `resultPipe`: run `fn1()` (embedded by its
outcome), then the loop over the remaining steps. -/
def resultPipeTry {T : Type} (fn1 : Except JSValue (Result T))
    (fns : List (T → Except JSValue (Result T))) : Except JSValue (Result T) :=
  match fn1 with
  | .error e => .error e
  | .ok acc => resultPipeLoop acc fns

/-- The string the `catch` clause of `resultPipe` builds from a caught
value: `error instanceof Error ? error.message : String(error)`. -/
def jsThrownMessage : JSValue → String
  | .jsError m _ _ _ => m
  | v => stringOf v

/-- Function `resultPipe` of `src/result/pipe.ts`: the `try` block around the loop,
with the `catch` clause
`return createFail(error instanceof Error ? error.message : String(error))`. -/
def resultPipe {T : Type} (fn1 : Except JSValue (Result T))
    (fns : List (T → Except JSValue (Result T))) : Result T :=
  match resultPipeTry fn1 fns with
  | .ok r => r
  | .error e => createFail (.str (jsThrownMessage e))

/-- Function `pipe` of `src/fp/pipe.ts`: a `switch` on the number of step functions
with explicit arms for 0 to 4 steps and `fns.reduce((acc, fn) => fn(acc), initial)`
in the `default` arm.  The untyped implementation signature threads a single
value type through every step. -/
def pipe {T : Type} (initial : T) (fns : List (T → T)) : T :=
  match fns with
  | [] => initial
  | [fn1] => fn1 initial
  | [fn1, fn2] => fn2 (fn1 initial)
  | [fn1, fn2, fn3] => fn3 (fn2 (fn1 initial))
  | [fn1, fn2, fn3, fn4] => fn4 (fn3 (fn2 (fn1 initial)))
  | fns => fns.foldl (fun acc fn => fn acc) initial

/-- A condition/action pair of the `cond` and `rcond` dispatchers. -/
structure Conditional (T U : Type) where
  condition : T → Bool
  action : T → U

/-- The scan `Array.prototype.find` as used by `cond` and `rcond`: scan the pairs in
listed order, evaluating each condition on the input, and stop at the first
one that returns `true`. -/
def findConditional {T U : Type} (args : T) :
    List (Conditional T U) → Option (Conditional T U)
  | [] => none
  | c :: rest => if c.condition args then some c else findConditional args rest

/-- Dispatcher `cond` of `src/fp/cond.ts`: find the first matching pair; if none
matches, `throw new Error("No conditional found")` (the exception channel
carries the raised error's message); otherwise return the action's raw
value applied to the input. -/
def cond {T U : Type} (args : T) (conditionals : List (Conditional T U)) :
    Except String U :=
  match findConditional args conditionals with
  | none => .error "No conditional found"
  | some c => .ok (c.action args)

/-- Dispatcher `rcond` of the fp module: same first-match scan, but the actions return
Results and the no-match case returns `createFail("No conditional found")`
instead of raising. -/
def rcond {T U : Type} (args : T) (conditionals : List (Conditional T (Result U))) :
    Result U :=
  match findConditional args conditionals with
  | none => createFail (.str "No conditional found")
  | some c => c.action args

/-- Modelled from the spec's description of the `resultPipe` sequencing
discipline (section 4.4): starting from the first step's Result, a Failure
is returned immediately without touching the remaining steps, and a Success
has its `output` fed to the next step; the final step's Result is returned.
Used as the specification side of the refinement theorem for `resultPipe`. -/
def chainResultsSpec {T : Type} : Result T → List (T → Result T) → Result T
  | r, [] => r
  | .fail f, _ :: _ => .fail f
  | .success v, g :: rest => chainResultsSpec (g v) rest

/-- A step that computes a Result without throwing, embedded into the
exception-aware step type of `resultPipe`. -/
def liftStep {T : Type} (g : T → Result T) : T → Except JSValue (Result T) :=
  fun v => .ok (g v)

/-- Modelled from the spec's words for `formatError` (section 4.2): for a
structured error object, the prefix followed by the stack if non-empty and
the message otherwise; for any other value, the prefix followed by the
host's default string conversion.  Used as the specification side of the
refinement theorem for `createErrorString`. -/
def formatErrorSpec (value : JSValue) (context : String) : String :=
  match value with
  | .jsError message stack _ _ =>
      context ++ (match stack with
        | some st => if st = "" then message else st
        | none => message)
  | v => context ++ stringOf v

/-! Helper lemmas. -/

/-- A failing accumulator leaves the `resultPipe` loop at once, whatever the
remaining steps are. -/
theorem resultPipeLoop_fail {T : Type} (f : ResultFail)
    (fns : List (T → Except JSValue (Result T))) :
    resultPipeLoop (Result.fail f) fns = Except.ok (Result.fail f) := by
  cases fns <;> rfl

/-- Over steps that do not throw, the `resultPipe` loop computes exactly the
spec-side chain. -/
theorem resultPipeLoop_lift {T : Type} (r : Result T) (gs : List (T → Result T)) :
    resultPipeLoop r (gs.map liftStep) = Except.ok (chainResultsSpec r gs) := by
  induction gs generalizing r with
  | nil => cases r <;> rfl
  | cons g rest ih =>
    cases r with
    | fail f => rfl
    | success v => exact ih (g v)

/-- A prefix whose conditions all reject the input does not affect the scan. -/
theorem findConditional_append {T U : Type} (args : T)
    (pre rest : List (Conditional T U))
    (h : ∀ c ∈ pre, c.condition args = false) :
    findConditional args (pre ++ rest) = findConditional args rest := by
  induction pre with
  | nil => rfl
  | cons c cs ih =>
    have hc : c.condition args = false := h c (by simp)
    simp only [List.cons_append, findConditional, hc, if_false]
    exact ih (fun c' hc' => h c' (by simp [hc']))

/-- When every condition rejects the input, the scan finds nothing. -/
theorem findConditional_none {T U : Type} (args : T) (l : List (Conditional T U))
    (h : ∀ c ∈ l, c.condition args = false) :
    findConditional args l = none := by
  induction l with
  | nil => rfl
  | cons c cs ih =>
    have hc : c.condition args = false := h c (by simp)
    simp only [findConditional, hc, if_false]
    exact ih (fun c' hc' => h c' (by simp [hc']))

/-- The scan returns the first pair whose condition accepts the input,
independently of the pairs listed after it. -/
theorem findConditional_first {T U : Type} (args : T)
    (pre tl : List (Conditional T U)) (c : Conditional T U)
    (hpre : ∀ c' ∈ pre, c'.condition args = false)
    (hc : c.condition args = true) :
    findConditional args (pre ++ c :: tl) = some c := by
  rw [findConditional_append args pre _ hpre]
  simp only [findConditional, hc, if_true]

/-! Claim theorems. -/

/-- C1: for every chain of non-throwing step functions, `resultPipe` follows
the spec's sequencing discipline: a Failure produced by a step is returned
immediately and the remaining steps are irrelevant (hence never invoked),
a Success has its `output` fed to the next step, and the final step's
Result is returned.  The first conjunct is the full refinement against
`chainResultsSpec`; the second shows a failing accumulator short-circuits
past an arbitrary remainder of the pipe (throwing steps included); the
third shows a Success's `output` is what the next step receives. -/
theorem resultPipe_follows_spec_chain {T : Type} (r1 : Result T)
    (gs : List (T → Result T)) :
    resultPipe (Except.ok r1) (gs.map liftStep) = chainResultsSpec r1 gs ∧
    (∀ (f : ResultFail) (fns : List (T → Except JSValue (Result T))),
        resultPipe (Except.ok (Result.fail f)) fns = Result.fail f) ∧
    (∀ (v : T) (g : T → Result T) (fns : List (T → Except JSValue (Result T))),
        resultPipe (Except.ok (Result.success v)) (liftStep g :: fns) =
          resultPipe (Except.ok (g v)) fns) := by
  refine ⟨?_, ?_, ?_⟩
  · simp only [resultPipe, resultPipeTry, resultPipeLoop_lift]
  · intro f fns
    simp only [resultPipe, resultPipeTry, resultPipeLoop_fail]
  · intro v g fns
    rfl

/-- C2 counterexample: a step that throws a structured `Error` (message
`"boom"`, a stack, name `"Error"`) does not produce the Failure that
`createFail ∘ errorProperties` would build: the pipe's `catch` keeps only
the plain message string and drops the `message`/`stack`/`name` fields
(the `errorProperties` Failure would carry the stack text in `error` and
all three fields). -/
theorem resultPipe_catch_is_not_errorProperties :
    resultPipe (T := Int)
        (Except.error (JSValue.jsError "boom"
          (some "Error: boom\n    at step (file.ts:2:9)") "Error" none)) [] ≠
      createFail (failInputOfProps (createErrorProperties
        (JSValue.jsError "boom"
          (some "Error: boom\n    at step (file.ts:2:9)") "Error" none) "")) := by
  simp [resultPipe, resultPipeTry, createFail, failInputOfProps,
    createErrorProperties, createErrorString, Result.fail.injEq,
    ResultFail.mk.injEq]

/-- C2 amended: when a step of `resultPipe` throws or its pending value
rejects, the pipe returns a Failure built by `createFail` from the plain
string `error instanceof Error ? error.message : String(error)` - not from
`errorProperties` - so its `error` field is the thrown Error's message (or
the value's default string form) and it carries no `message`, `stack`,
`cause` or `name` field. -/
theorem resultPipe_catch_builds_plain_string_failure {T : Type}
    (fn1 : Except JSValue (Result T))
    (fns : List (T → Except JSValue (Result T))) (e : JSValue)
    (h : resultPipeTry fn1 fns = Except.error e) :
    ∃ fr : ResultFail, resultPipe fn1 fns = Result.fail fr ∧
      fr.error = jsThrownMessage e ∧
      fr.message = none ∧ fr.stack = none ∧ fr.cause = none ∧ fr.name = none := by
  refine ⟨⟨jsThrownMessage e, none, none, none, none⟩, ?_, rfl, rfl, rfl, rfl, rfl⟩
  unfold resultPipe
  rw [h]
  rfl

/-- Witness for C2's amended theorem at a concrete throwing first step. -/
theorem resultPipe_catch_builds_plain_string_failure_witness :
    ∃ fr : ResultFail,
      resultPipe (T := Int) (Except.error (JSValue.jsString "boom")) [] =
        Result.fail fr ∧
      fr.error = "boom" ∧
      fr.message = none ∧ fr.stack = none ∧ fr.cause = none ∧ fr.name = none :=
  resultPipe_catch_builds_plain_string_failure
    (Except.error (JSValue.jsString "boom")) [] (JSValue.jsString "boom") rfl

/-- C3: a run of `resultPipe` in which some step throws (or rejects) returns
a Failure rather than letting the exception escape, and that Failure's
`error` field is the thrown value's `message` when the value is a host
`Error` and its default string form otherwise. -/
theorem resultPipe_converts_raise_to_failure {T : Type}
    (fn1 : Except JSValue (Result T))
    (fns : List (T → Except JSValue (Result T))) (e : JSValue)
    (h : resultPipeTry fn1 fns = Except.error e) :
    resultPipe fn1 fns =
      Result.fail ⟨jsThrownMessage e, none, none, none, none⟩ := by
  unfold resultPipe
  rw [h]
  rfl

/-- Witness for C3 at a concrete chain whose second step throws an `Error`
with message `"kaput"`. -/
theorem resultPipe_converts_raise_to_failure_witness :
    resultPipe (T := Int) (Except.ok (Result.success 1))
        [fun _ => Except.error (JSValue.jsError "kaput" none "Error" none)] =
      Result.fail ⟨"kaput", none, none, none, none⟩ :=
  resultPipe_converts_raise_to_failure (Except.ok (Result.success 1))
    [fun _ => Except.error (JSValue.jsError "kaput" none "Error" none)]
    (JSValue.jsError "kaput" none "Error" none) rfl

/-- C4 counterexample: on `[Success 1, Failure "boom", Success 3]` the live
`unwrapResults` does not raise: it returns normally (`Except.ok`, never
`Except.error`), with the Failure's position holding `undefined` rather
than triggering a `PreconditionViolation` mentioning `"boom"`. -/
theorem unwrapResults_returns_on_failure :
    unwrapResults [createSuccess (1 : Int),
        createFail (FailInput.str "boom"), createSuccess 3] =
      Except.ok [some 1, none, some 3] := rfl

/-- C4 amended: `unwrapResults` requires every element to be a Success (its
parameter type says so); on an all-Success sequence it returns the outputs
in the same order, one-to-one; and on any sequence at all it returns
normally - a Failure element yields an `undefined` entry at its position
instead of an error being raised. -/
theorem unwrapResults_maps_outputs {T : Type} (vs : List T)
    (rs : List (Result T)) :
    unwrapResults (vs.map createSuccess) = Except.ok (vs.map some) ∧
    unwrapResults rs = Except.ok (rs.map fun r => outputProp r) := by
  constructor
  · unfold unwrapResults
    rw [List.map_map]
    rfl
  · rfl

/-- C5: `createFail` on a plain string sets only `error`, leaving `message`,
`stack`, `cause` and `name` absent; on a structured record it copies each
of the five declared fields verbatim, present or absent. -/
theorem createFail_copies_fields {T : Type} (e : String) (er : String)
    (m st : Option String) (c : Option JSValue) (n ctx : Option String) :
    createFail (T := T) (FailInput.str e) =
      Result.fail ⟨e, none, none, none, none⟩ ∧
    createFail (T := T) (FailInput.record er m st c n ctx) =
      Result.fail ⟨er, m, st, c, n⟩ :=
  ⟨rfl, rfl⟩

/-- C6: `cond` scans the pairs in listed order; at the first condition that
accepts the input it returns that pair's action applied to the input (the
raw value), and the pairs after the match are irrelevant (hence never
evaluated: the result is the same for every tail); when no condition
accepts the input it raises an `Error` whose message is
`"No conditional found"`. -/
theorem cond_first_match_or_throws {T U : Type} (args : T)
    (pre tail1 tail2 l : List (Conditional T U)) (c : Conditional T U)
    (hpre : ∀ c' ∈ pre, c'.condition args = false)
    (hc : c.condition args = true)
    (hl : ∀ c' ∈ l, c'.condition args = false) :
    cond args (pre ++ c :: tail1) = Except.ok (c.action args) ∧
    cond args (pre ++ c :: tail1) = cond args (pre ++ c :: tail2) ∧
    cond args l = Except.error "No conditional found" := by
  refine ⟨?_, ?_, ?_⟩
  · unfold cond
    rw [findConditional_first args pre tail1 c hpre hc]
  · unfold cond
    rw [findConditional_first args pre tail1 c hpre hc,
      findConditional_first args pre tail2 c hpre hc]
  · unfold cond
    rw [findConditional_none args l hl]

/-- A condition/action pair matching strictly positive inputs. -/
def posCheck : Conditional Int String :=
  ⟨fun n => decide (0 < n), fun _ => "pos"⟩

/-- A condition/action pair matching inputs greater than ten. -/
def bigCheck : Conditional Int String :=
  ⟨fun n => decide (10 < n), fun _ => "big"⟩

/-- A condition/action pair matching strictly negative inputs. -/
def negCheck : Conditional Int String :=
  ⟨fun n => decide (n < 0), fun _ => "neg"⟩

/-- Witness for C6 at input `5` with the pair list
`[bigCheck, posCheck, negCheck]` and the no-match list `[negCheck]`. -/
theorem cond_first_match_or_throws_witness :
    cond 5 ([bigCheck] ++ posCheck :: [negCheck]) = Except.ok "pos" ∧
    cond 5 ([bigCheck] ++ posCheck :: [negCheck]) =
      cond 5 ([bigCheck] ++ posCheck :: []) ∧
    cond 5 [negCheck] = Except.error "No conditional found" :=
  cond_first_match_or_throws 5 [bigCheck] [negCheck] [] [negCheck] posCheck
    (by intro c' hmem
        rw [List.mem_singleton] at hmem
        subst hmem
        decide)
    (by decide)
    (by intro c' hmem
        rw [List.mem_singleton] at hmem
        subst hmem
        decide)

/-- C7: `rcond` applies the same first-match-in-listed-order rule as `cond`
and returns the matching action's Result unchanged, with the pairs after
the match irrelevant; when no condition accepts the input it returns
`createFail("No conditional found")` - a Failure value, not a raised
exception (`rcond` is a total function into `Result`). -/
theorem rcond_first_match_or_fails {T U : Type} (args : T)
    (pre tail1 tail2 l : List (Conditional T (Result U)))
    (c : Conditional T (Result U))
    (hpre : ∀ c' ∈ pre, c'.condition args = false)
    (hc : c.condition args = true)
    (hl : ∀ c' ∈ l, c'.condition args = false) :
    rcond args (pre ++ c :: tail1) = c.action args ∧
    rcond args (pre ++ c :: tail1) = rcond args (pre ++ c :: tail2) ∧
    rcond args l = Result.fail ⟨"No conditional found", none, none, none, none⟩ := by
  refine ⟨?_, ?_, ?_⟩
  · unfold rcond
    rw [findConditional_first args pre tail1 c hpre hc]
  · unfold rcond
    rw [findConditional_first args pre tail1 c hpre hc,
      findConditional_first args pre tail2 c hpre hc]
  · unfold rcond
    rw [findConditional_none args l hl]
    rfl

/-- A Result-returning pair matching strictly positive inputs. -/
def rposCheck : Conditional Int (Result String) :=
  ⟨fun n => decide (0 < n), fun _ => createSuccess "pos"⟩

/-- A Result-returning pair matching inputs greater than ten. -/
def rbigCheck : Conditional Int (Result String) :=
  ⟨fun n => decide (10 < n), fun _ => createSuccess "big"⟩

/-- A Result-returning pair matching strictly negative inputs. -/
def rnegCheck : Conditional Int (Result String) :=
  ⟨fun n => decide (n < 0), fun _ => createSuccess "neg"⟩

/-- Witness for C7 at input `5` with the pair list
`[rbigCheck, rposCheck, rnegCheck]` and the no-match list `[rnegCheck]`. -/
theorem rcond_first_match_or_fails_witness :
    rcond 5 ([rbigCheck] ++ rposCheck :: [rnegCheck]) = createSuccess "pos" ∧
    rcond 5 ([rbigCheck] ++ rposCheck :: [rnegCheck]) =
      rcond 5 ([rbigCheck] ++ rposCheck :: []) ∧
    rcond 5 [rnegCheck] =
      Result.fail ⟨"No conditional found", none, none, none, none⟩ :=
  rcond_first_match_or_fails 5 [rbigCheck] [rnegCheck] [] [rnegCheck] rposCheck
    (by intro c' hmem
        rw [List.mem_singleton] at hmem
        subst hmem
        decide)
    (by decide)
    (by intro c' hmem
        rw [List.mem_singleton] at hmem
        subst hmem
        decide)

/-- C8: for every initial value and list of step functions - through the
arity-specialized arms for zero to four steps and the generic `reduce` arm
beyond - `pipe` computes the left-to-right fold `acc_0 = initial`,
`acc_i = step_i(acc_(i-1))`, and with zero steps it returns the initial
value unchanged. -/
theorem pipe_eq_foldl {T : Type} (initial : T) (fns : List (T → T)) :
    pipe initial fns = fns.foldl (fun acc fn => fn acc) initial ∧
    pipe initial [] = initial := by
  constructor
  · rcases fns with _ | ⟨f1, _ | ⟨f2, _ | ⟨f3, _ | ⟨f4, _ | ⟨f5, rest⟩⟩⟩⟩⟩ <;> rfl
  · rfl

/-- C9: `createErrorString` agrees with the spec's `formatError` on every
value and prefix: for a structured error object it is the prefix followed
by the stack text when non-empty and by the message otherwise, and for any
other value the prefix followed by the host's default string conversion -
in particular a plain key/value object gets the generic
`"[object Object]"` rendering and a number its decimal rendering. -/
theorem createErrorString_matches_spec (value : JSValue) (context : String) :
    createErrorString value context = formatErrorSpec value context ∧
    createErrorString JSValue.jsObject context = context ++ "[object Object]" ∧
    createErrorString (JSValue.jsNumber 42) "" = "42" := by
  refine ⟨?_, rfl, rfl⟩
  cases value <;> rfl

/-- C10: `createFail` discards a `context` key on its record argument - the
result is the same whatever `context` holds - and the Failures the guards
`rTry`/`rTryAsync` build from a caught value carry exactly the `error`,
`message`, `stack`, `cause` and `name` of `createErrorProperties`, the
`context` field having no counterpart in the `ResultFail` shape. -/
theorem createFail_discards_context {T : Type} (er : String)
    (m st : Option String) (c : Option JSValue) (n : Option String)
    (ctx1 ctx2 : Option String) (e : JSValue) :
    createFail (T := T) (FailInput.record er m st c n ctx1) =
      createFail (T := T) (FailInput.record er m st c n ctx2) ∧
    rTry (T := T) (Except.error e) = Result.fail
      ⟨(createErrorProperties e "").error, (createErrorProperties e "").message,
        (createErrorProperties e "").stack, (createErrorProperties e "").cause,
        (createErrorProperties e "").name⟩ ∧
    rTryAsync (T := T) (Except.error e) = rTry (T := T) (Except.error e) :=
  ⟨rfl, rfl, rfl⟩

end DarkMatter
